import Mathlib

/-!
Verification of the K7SATAPHY top-level wiring (lib/sata/k7sataphy/__init__.py)
and the OpenPitonRV64 CPU wrapper (litex/soc/cores/cpu/openpiton/core.py).

The PHY top level is pure combinational wiring between the GTX transceiver,
the control (negotiator) block and the RX/TX width converters.  We embed the
`self.comb` block of `K7SATAPHY.__init__` as a pure function from the wiring
inputs (signals the comb block reads) to the wiring outputs (signals it
drives).  Migen semantics: a combinational signal that is assigned in one
branch of an `If`/`Else` but not the other takes its reset value (0) in the
unassigned branch.

The RX/TX width converters themselves (`K7SATAPHYRXConvert`,
`K7SATAPHYTXConvert` from lib/sata/k7sataphy/datapath.py) and the control
blocks are instantiated but their module file is not part of this source
tree, so their behavior is modelled from the specification (sections 4.3
and 4.4) where a claim needs it.
-/

/- ### Data model: combinational wiring of `K7SATAPHY.__init__` -/

/-- Inputs read by the combinational block of `K7SATAPHY.__init__`:
the control/negotiator (`ctrl`) outputs, the top-level sink, the TX
converter's handshake/output, the RX converter's source and the GTX RX
signals. -/
structure CombIn where
  ctrl_ready : Bool
  ctrl_txdata : Nat
  ctrl_txcharisk : Nat
  sink_stb : Bool
  sink_d : Nat
  txconvert_sink_ack : Bool
  txconvert_txdata : Nat
  txconvert_txcharisk : Nat
  rxconvert_source_stb : Bool
  rxconvert_source_data : Nat
  gtx_rxdata : Nat
  gtx_rxcharisk : Nat
deriving Repr, DecidableEq

/-- Signals driven by the combinational block of `K7SATAPHY.__init__`. -/
structure CombOut where
  rxconvert_rxdata : Nat
  rxconvert_rxcharisk : Nat
  gtx_txdata : Nat
  gtx_txcharisk : Nat
  txconvert_sink_stb : Bool
  txconvert_sink_data : Nat
  txconvert_sink_charisk : Nat
  sink_ack : Bool
  source_stb : Bool
  source_payload : Nat
  rxconvert_source_ack : Bool
  ctrl_rxdata : Nat
deriving Repr, DecidableEq

/-- The combinational wiring of `K7SATAPHY.__init__` (lines 31-54).
`self.sink.ack` is only assigned in the `If ctrl.ready` branch, so in the
`Else` branch it takes its reset value `0` (here `false`). -/
def phyComb (i : CombIn) : CombOut where
  rxconvert_rxdata := i.gtx_rxdata
  rxconvert_rxcharisk := i.gtx_rxcharisk
  gtx_txdata := i.txconvert_txdata
  gtx_txcharisk := i.txconvert_txcharisk
  txconvert_sink_stb := if i.ctrl_ready then i.sink_stb else true
  txconvert_sink_data := if i.ctrl_ready then i.sink_d else i.ctrl_txdata
  txconvert_sink_charisk := if i.ctrl_ready then 0 else i.ctrl_txcharisk
  sink_ack := if i.ctrl_ready then i.txconvert_sink_ack else false
  source_stb := i.rxconvert_source_stb
  source_payload := i.rxconvert_source_data
  rxconvert_source_ack := true
  ctrl_rxdata := i.rxconvert_source_data

/- ### Data model: characters and width conversion (spec sections 3, 4.3, 4.4) -/

/-- One transceiver-granularity unit: 8-bit payload plus a control flag
marking it as a primitive/control character rather than data. -/
structure SataChar where
  data : Nat
  isk : Bool
deriving Repr, DecidableEq

/-- A character carries payload data (its control flag is clear). -/
def isDataChar (c : SataChar) : Bool := !c.isk

/-- Little-endian reassembly of a byte list into a word:
`wordOfBytes [b0, b1, b2, b3] = b0 + 256*b1 + 65536*b2 + 16777216*b3`. -/
def wordOfBytes : List Nat → Nat
  | [] => 0
  | b :: bs => b + 256 * wordOfBytes bs

/-- Modelled from the spec: `K7SATAPHYTXConvert` (lib/sata/k7sataphy/datapath.py
is not in the source tree).  Fragments one 32-bit word into the fixed
characters-per-word count (4) of characters, each tagged as data, in
little-endian byte order (spec section 4.4). -/
def txConvertWord (w : Nat) : List SataChar :=
  [⟨w % 256, false⟩, ⟨w / 256 % 256, false⟩,
   ⟨w / 65536 % 256, false⟩, ⟨w / 16777216 % 256, false⟩]

/-- Modelled from the spec: the TX converter's character stream for a
sequence of words, one word fully drained before the next (spec
section 4.4). -/
def txConvertWords : List Nat → List SataChar
  | [] => []
  | w :: ws => txConvertWord w ++ txConvertWords ws

/-- Modelled from the spec: stream-level behavior of `K7SATAPHYRXConvert`
(lib/sata/k7sataphy/datapath.py is not in the source tree), with immediate
downstream acknowledgment.  Data characters accumulate into a word buffer
at 4 characters per word; a full buffer is emitted as a word; primitive
(control-flagged) characters are consumed, never forwarded, and reset the
in-progress partial word (spec section 4.3). -/
def rxConvertGo : List Nat → List SataChar → List Nat
  | _, [] => []
  | buf, c :: cs =>
    if c.isk then rxConvertGo [] cs
    else
      if (buf ++ [c.data]).length = 4 then
        wordOfBytes (buf ++ [c.data]) :: rxConvertGo [] cs
      else
        rxConvertGo (buf ++ [c.data]) cs

/-- The RX converter's word output for a character stream, starting from an
empty buffer. -/
def rxConvertChars (cs : List SataChar) : List Nat := rxConvertGo [] cs

/- ### Cycle-accurate RX converter model with handshake (spec section 4.3) -/

/-- State of the cycle-accurate RX converter model: the partial word buffer
and the assembled word currently presented on the source (if any). -/
structure RXConvertState where
  buffer : List Nat
  pending : Option Nat
deriving Repr, DecidableEq

/-- Modelled from the spec: one tick of `K7SATAPHYRXConvert` with its source
handshake (lib/sata/k7sataphy/datapath.py is not in the source tree).
The output is the word presented this tick (the pending word).  If a word
is pending and the source is not acknowledged, the converter holds the
word and stalls character consumption (spec section 4.3).  Otherwise the
incoming character is consumed: a primitive resets the partial word, a
data character accumulates, and a full buffer becomes the next pending
word. -/
def rxConvertTick (s : RXConvertState) (c : SataChar) (ack : Bool) :
    RXConvertState × Option Nat :=
  match s.pending, ack with
  | some w, false => (s, some w)
  | p, _ =>
    if c.isk then (⟨[], none⟩, p)
    else
      if (s.buffer ++ [c.data]).length = 4 then
        (⟨[], some (wordOfBytes (s.buffer ++ [c.data]))⟩, p)
      else
        (⟨s.buffer ++ [c.data], none⟩, p)

/-- Run the cycle-accurate RX converter over per-tick inputs (incoming
character, source acknowledgment), collecting the per-tick presented
word. -/
def rxConvertRun : RXConvertState → List (SataChar × Bool) → List (Option Nat)
  | _, [] => []
  | s, (c, ack) :: rest =>
    (rxConvertTick s c ack).2 :: rxConvertRun (rxConvertTick s c ack).1 rest

/-- The RX converter's per-tick emission trace inside the composed PHY: the
wiring of `K7SATAPHY.__init__` drives `rxconvert.source.ack` with the
constant 1, so every tick's acknowledgment input is `true` regardless of
the downstream consumer. -/
def composedRXTrace (chars : List SataChar) : List (Option Nat) :=
  rxConvertRun ⟨[], none⟩ (chars.map (fun c => (c, true)))

/-- Words the composed PHY's RX converter emits (asserts source stb for)
over a run. -/
def emittedWords (chars : List SataChar) : List Nat :=
  (composedRXTrace chars).filterMap id

/-- Words actually received by the downstream word consumer: the word
presented at tick `t` is taken only when the downstream acknowledges at
tick `t`; the composed wiring never makes the converter wait for that
acknowledgment. -/
def deliveredWords (chars : List SataChar) (dnacks : List Bool) : List Nat :=
  ((composedRXTrace chars).zip dnacks).filterMap
    (fun p => if p.2 then p.1 else none)

/-- Concrete wiring input for the C2 counterexample: negotiator not ready
while the RX converter strobes a word. -/
def c2Input : CombIn where
  ctrl_ready := false
  ctrl_txdata := 0
  ctrl_txcharisk := 0
  sink_stb := false
  sink_d := 0
  txconvert_sink_ack := false
  txconvert_txdata := 0
  txconvert_txcharisk := 0
  rxconvert_source_stb := true
  rxconvert_source_data := 7
  gtx_rxdata := 0
  gtx_rxcharisk := 0

/-- Concrete character stream for the C3 counterexample: two words' worth of
data characters followed by one primitive character (nine ticks). -/
def c3Chars : List SataChar := txConvertWords [17, 42] ++ [⟨124, true⟩]

/- ### OpenPitonRV64 CPU wrapper (litex/soc/cores/cpu/openpiton/core.py) -/

/-- Python exception outcomes relevant to the wrapper. -/
inductive PyError where
  | assertionError
deriving Repr, DecidableEq

/-- The instance-parameter names constructed in `OpenPitonRV64.__init__`
(`self.cpu_params`), fixed at construction. -/
def openPitonCpuParamNames : List String :=
  ["i_sys_clk", "i_sys_rst_n", "i_mc_clk",
   "o_m_axi_awid", "o_m_axi_awaddr", "o_m_axi_awlen", "o_m_axi_awsize",
   "o_m_axi_awburst", "o_m_axi_awlock", "o_m_axi_awcache", "o_m_axi_awprot",
   "o_m_axi_awqos", "o_m_axi_awvalid", "i_m_axi_awready",
   "o_m_axi_wid", "o_m_axi_wdata", "o_m_axi_wstrb", "o_m_axi_wlast",
   "o_m_axi_wvalid", "i_m_axi_wready",
   "o_m_axi_arid", "o_m_axi_araddr", "o_m_axi_arlen", "o_m_axi_arsize",
   "o_m_axi_arburst", "o_m_axi_arlock", "o_m_axi_arcache", "o_m_axi_arprot",
   "o_m_axi_arqos", "o_m_axi_arvalid", "i_m_axi_arready",
   "i_m_axi_rid", "i_m_axi_rdata", "i_m_axi_rresp", "i_m_axi_rlast",
   "i_m_axi_rvalid", "o_m_axi_rready",
   "i_m_axi_bid", "i_m_axi_bresp", "i_m_axi_bvalid", "o_m_axi_bready",
   "i_ddr_ready", "i_ext_irq", "i_ext_irq_trigger"]

/-- The mutable attribute state of an `OpenPitonRV64` object:
`reset_address` is absent (`none`) until `set_reset_address` stores it
(Python `hasattr`); `specials` collects the Verilog instances added by
`do_finalize`, each the instantiated module name with its parameter
names. -/
structure OpenPitonRV64 where
  cpu_params : List String
  reset_address : Option Nat
  specials : List (String × List String)
deriving Repr, DecidableEq

/-- The object state right after `OpenPitonRV64.__init__`: `cpu_params`
constructed, no `reset_address` attribute, no finalized instance. -/
def OpenPitonRV64.init : OpenPitonRV64 where
  cpu_params := openPitonCpuParamNames
  reset_address := none
  specials := []

/-- `OpenPitonRV64.set_reset_address` (core.py lines 150-153): asserts that
the `reset_address` attribute does not exist yet, then stores it.  The
assertion is checked before any write, so a failing call mutates
nothing. -/
def OpenPitonRV64.set_reset_address (cpu : OpenPitonRV64) (addr : Nat) :
    Except PyError OpenPitonRV64 :=
  if cpu.reset_address.isSome then .error .assertionError
  else .ok { cpu with reset_address := some addr }

/-- The Verilog module name instantiated by `do_finalize`. -/
def openPitonModuleName : String := "OpenPitonRV64"

/-- `OpenPitonRV64.do_finalize` (core.py lines 161-163): asserts that the
`reset_address` attribute exists, then adds the
`Instance("OpenPitonRV64", **self.cpu_params)` special. -/
def OpenPitonRV64.do_finalize (cpu : OpenPitonRV64) :
    Except PyError OpenPitonRV64 :=
  if cpu.reset_address.isSome then
    .ok { cpu with
          specials := cpu.specials ++ [(openPitonModuleName, cpu.cpu_params)] }
  else .error .assertionError

/- ### Theorems -/

/-- C1: every cycle the composer selects the TX converter's input by the
negotiator's ready flag: when `ctrl.ready` the TX converter's sink receives
the upstream word stream (stb and data forwarded from the top-level sink),
otherwise it receives the negotiator's primitive pattern (`ctrl.txdata`
with `ctrl.txcharisk`). -/
theorem composer_tx_mux_by_ready (i : CombIn) :
    ((phyComb i).txconvert_sink_stb,
     (phyComb i).txconvert_sink_data,
     (phyComb i).txconvert_sink_charisk) =
      if i.ctrl_ready then (i.sink_stb, i.sink_d, 0)
      else (true, i.ctrl_txdata, i.ctrl_txcharisk) := by
  cases h : i.ctrl_ready <;> simp [phyComb, h]

/-- C2 fails on the code: the wiring drives `self.source.stb` from
`rxconvert.source.stb` unconditionally, so the upstream source's stb is
asserted while the negotiator is not ready whenever the RX converter
strobes.  Concretely, `c2Input` has `ctrl_ready = false` and
`rxconvert_source_stb = true`, yet the top-level source stb is `true`. -/
theorem source_stb_not_gated_counterexample :
    c2Input.ctrl_ready = false ∧ (phyComb c2Input).source_stb = true := by
  decide

/-- C2 amended: every cycle (in every link state, ready or not) the RX
converter's output word is delivered to the negotiator (`ctrl.rxdata`), and
it is also forwarded unconditionally to the top-level upstream source: the
upstream source's stb follows `rxconvert.source.stb` and its payload the
converter's data, regardless of `ctrl.ready`. -/
theorem rx_forwarded_to_ctrl_and_upstream (i : CombIn) :
    (phyComb i).ctrl_rxdata = i.rxconvert_source_data ∧
    (phyComb i).source_stb = i.rxconvert_source_stb ∧
    (phyComb i).source_payload = i.rxconvert_source_data :=
  ⟨rfl, rfl, rfl⟩

/-- C4: while the negotiator is not ready, the TX converter's sink is forced
valid with the negotiator's `txdata`/`txcharisk`, so the negotiator is the
sole producer of the TX characters reaching the transceiver
(`gtx.txdata`/`gtx.txcharisk` are wired from the TX converter's output);
while ready, the TX converter's sink carries only what the composer
forwards from the upstream word stream. -/
theorem tx_characters_producer_by_state (i : CombIn) :
    (phyComb i).gtx_txdata = i.txconvert_txdata ∧
    (phyComb i).gtx_txcharisk = i.txconvert_txcharisk ∧
    ((phyComb i).txconvert_sink_stb,
     (phyComb i).txconvert_sink_data,
     (phyComb i).txconvert_sink_charisk) =
      (if i.ctrl_ready then (i.sink_stb, i.sink_d, 0)
       else (true, i.ctrl_txdata, i.ctrl_txcharisk)) := by
  refine ⟨rfl, rfl, ?_⟩
  cases h : i.ctrl_ready <;> simp [phyComb, h]

/-- C5: while the negotiator is not ready, the TX converter's sink is driven
with the negotiator's primitive pattern and the upstream word source is
ignored: `self.sink.ack` is only assigned in the `If ctrl.ready` branch, so
it is never asserted while not ready and no upstream word is consumed. -/
theorem sink_never_acked_while_not_ready (i : CombIn)
    (h : i.ctrl_ready = false) :
    (phyComb i).sink_ack = false ∧
    (phyComb i).txconvert_sink_stb = true ∧
    (phyComb i).txconvert_sink_data = i.ctrl_txdata := by
  simp [phyComb, h]

/-- Witness for `sink_never_acked_while_not_ready` at a concrete input where
the upstream sink is actively strobing and the TX converter would accept. -/
theorem sink_never_acked_while_not_ready_witness :
    (phyComb
      { ctrl_ready := false, ctrl_txdata := 1234, ctrl_txcharisk := 1,
        sink_stb := true, sink_d := 99, txconvert_sink_ack := true,
        txconvert_txdata := 0, txconvert_txcharisk := 0,
        rxconvert_source_stb := false, rxconvert_source_data := 0,
        gtx_rxdata := 0, gtx_rxcharisk := 0 }).sink_ack = false ∧
    (phyComb
      { ctrl_ready := false, ctrl_txdata := 1234, ctrl_txcharisk := 1,
        sink_stb := true, sink_d := 99, txconvert_sink_ack := true,
        txconvert_txdata := 0, txconvert_txcharisk := 0,
        rxconvert_source_stb := false, rxconvert_source_data := 0,
        gtx_rxdata := 0, gtx_rxcharisk := 0 }).txconvert_sink_stb = true ∧
    (phyComb
      { ctrl_ready := false, ctrl_txdata := 1234, ctrl_txcharisk := 1,
        sink_stb := true, sink_d := 99, txconvert_sink_ack := true,
        txconvert_txdata := 0, txconvert_txcharisk := 0,
        rxconvert_source_stb := false, rxconvert_source_data := 0,
        gtx_rxdata := 0, gtx_rxcharisk := 0 }).txconvert_sink_data = 1234 :=
  sink_never_acked_while_not_ready _ rfl

/-- C8: in every cycle and every link state, the negotiator's `rxdata` input
is driven from the RX converter's output word and the RX converter's source
is acknowledged unconditionally (`rxconvert.source.ack` tied to 1), so the
negotiator continuously observes the received stream. -/
theorem ctrl_monitors_rx_unconditionally (i : CombIn) :
    (phyComb i).ctrl_rxdata = i.rxconvert_source_data ∧
    (phyComb i).rxconvert_source_ack = true :=
  ⟨rfl, rfl⟩

/-- C6: a word forwarded to the TX converter while the negotiator is ready
is presented with a zero control flag (`txconvert.sink.charisk.eq(0)`), and
every character of its fragmentation is tagged as data. -/
theorem tx_word_chars_tagged_data (i : CombIn) (h : i.ctrl_ready = true) :
    (phyComb i).txconvert_sink_charisk = 0 ∧
    ((txConvertWord (phyComb i).txconvert_sink_data).all isDataChar) = true := by
  refine ⟨by simp [phyComb, h], ?_⟩
  simp [txConvertWord, isDataChar]

/-- Witness for `tx_word_chars_tagged_data` at a concrete ready-state input
carrying an upstream word. -/
theorem tx_word_chars_tagged_data_witness :
    (phyComb
      { ctrl_ready := true, ctrl_txdata := 0, ctrl_txcharisk := 0,
        sink_stb := true, sink_d := 305419896, txconvert_sink_ack := true,
        txconvert_txdata := 0, txconvert_txcharisk := 0,
        rxconvert_source_stb := false, rxconvert_source_data := 0,
        gtx_rxdata := 0, gtx_rxcharisk := 0 }).txconvert_sink_charisk = 0 ∧
    ((txConvertWord (phyComb
      { ctrl_ready := true, ctrl_txdata := 0, ctrl_txcharisk := 0,
        sink_stb := true, sink_d := 305419896, txconvert_sink_ack := true,
        txconvert_txdata := 0, txconvert_txcharisk := 0,
        rxconvert_source_stb := false, rxconvert_source_data := 0,
        gtx_rxdata := 0, gtx_rxcharisk := 0 }).txconvert_sink_data).all
      isDataChar) = true :=
  tx_word_chars_tagged_data _ rfl

/-- Fragmenting a word below 2^32 and reassembling its four little-endian
bytes, the RX stream model emits exactly that word and proceeds with the
rest of the stream. -/
theorem rxConvertGo_txConvertWord (w : Nat) (hw : w < 4294967296)
    (rest : List SataChar) :
    rxConvertGo [] (txConvertWord w ++ rest) = w :: rxConvertGo [] rest := by
  simp only [txConvertWord, List.cons_append, List.nil_append, rxConvertGo,
    List.length, wordOfBytes]
  norm_num
  omega

/-- C7: feeding any sequence of 32-bit words through the TX converter and the
resulting lossless character stream through the RX converter reconstructs
the identical sequence of words. -/
theorem tx_rx_roundtrip (ws : List Nat) (h : ∀ w ∈ ws, w < 4294967296) :
    rxConvertChars (txConvertWords ws) = ws := by
  induction ws with
  | nil => rfl
  | cons w ws ih =>
    have hw : w < 4294967296 := h w (List.mem_cons_self w ws)
    have hws : ∀ x ∈ ws, x < 4294967296 :=
      fun x hx => h x (List.mem_cons_of_mem _ hx)
    show rxConvertGo [] (txConvertWords (w :: ws)) = w :: ws
    rw [show txConvertWords (w :: ws) = txConvertWord w ++ txConvertWords ws
          from rfl,
        rxConvertGo_txConvertWord w hw]
    exact congrArg (w :: ·) (ih hws)

/-- Witness for `tx_rx_roundtrip` on a concrete word sequence, including the
largest 32-bit word. -/
theorem tx_rx_roundtrip_witness :
    rxConvertChars (txConvertWords [305419896, 5, 4294967295]) =
      [305419896, 5, 4294967295] :=
  tx_rx_roundtrip [305419896, 5, 4294967295] (by decide)

/-- C3 fails on the composed code: the wiring ties `rxconvert.source.ack`
to 1, so the downstream consumer's acknowledgment never reaches the RX
converter.  On the concrete nine-tick run `c3Chars` with the downstream
withholding acknowledgment on every tick, the composed converter still
emits two valid words (17 then 42) with no intervening downstream
acknowledgment — instead of emitting no new word and holding — and both
words are lost (none is ever delivered downstream). -/
theorem rx_backpressure_counterexample :
    emittedWords c3Chars = [17, 42] ∧
    deliveredWords c3Chars (List.replicate 9 false) = [] := by
  decide

/-- Every entry of a trace zipped with all-false acknowledgments is
discarded by the delivery filter. -/
theorem filterMap_unacked_nil (l : List (Option Nat × Bool))
    (h : ∀ p ∈ l, p.2 = false) :
    l.filterMap (fun p => if p.2 then p.1 else none) = [] := by
  induction l with
  | nil => rfl
  | cons x xs ih =>
    have hx : x.2 = false := h x (List.mem_cons_self _ _)
    simp [List.filterMap_cons, hx,
      ih fun p hp => h p (List.mem_cons_of_mem _ hp)]

/-- C3 amended: the stand-alone RX converter does hold a pending word and
stall character consumption while its own source acknowledgment is
withheld, but the composed wiring acknowledges the converter
unconditionally (`rxconvert.source.ack` tied to 1), never propagating the
downstream consumer's backpressure; consequently, when the downstream
withholds acknowledgment for a whole run, no emitted word is delivered —
pending words are dropped rather than held at the top level. -/
theorem rx_backpressure_defeated_by_wiring (s : RXConvertState) (w : Nat)
    (c : SataChar) (i : CombIn) (chars : List SataChar) (dnacks : List Bool)
    (hp : s.pending = some w) (hd : ∀ b ∈ dnacks, b = false) :
    rxConvertTick s c false = (s, some w) ∧
    (phyComb i).rxconvert_source_ack = true ∧
    deliveredWords chars dnacks = [] := by
  refine ⟨?_, rfl, ?_⟩
  · rw [show s = ⟨s.buffer, some w⟩ from by cases s; simp_all]
    rfl
  · exact filterMap_unacked_nil _
      fun p hp => hd p.2 (List.of_mem_zip hp).2

/-- Witness for `rx_backpressure_defeated_by_wiring`: a converter state
holding word 5 under withheld acknowledgment, a one-tick run with the
downstream withholding. -/
theorem rx_backpressure_defeated_by_wiring_witness :
    rxConvertTick ⟨[], some 5⟩ ⟨0, false⟩ false = (⟨[], some 5⟩, some 5) ∧
    (phyComb c2Input).rxconvert_source_ack = true ∧
    deliveredWords [⟨17, false⟩] [false] = [] :=
  rx_backpressure_defeated_by_wiring ⟨[], some 5⟩ 5 ⟨0, false⟩ c2Input
    [⟨17, false⟩] [false] rfl (by decide)

/-- C9: a first call to `set_reset_address` (on an object whose
`reset_address` attribute is absent) stores the given value; a second call
raises `AssertionError` — the assertion is checked before any write, so the
previously stored `reset_address` is left unchanged. -/
theorem set_reset_address_once (cpu : OpenPitonRV64) (a b : Nat) :
    OpenPitonRV64.set_reset_address { cpu with reset_address := none } a =
      .ok { cpu with reset_address := some a } ∧
    OpenPitonRV64.set_reset_address { cpu with reset_address := some a } b =
      .error .assertionError ∧
    ({ cpu with reset_address := some a } : OpenPitonRV64).reset_address =
      some a := by
  refine ⟨?_, ?_, rfl⟩ <;> simp [OpenPitonRV64.set_reset_address]

/-- C10: `do_finalize` on an object without the `reset_address` attribute
raises `AssertionError`; with `reset_address` set it succeeds and adds the
`Instance("OpenPitonRV64", **self.cpu_params)` special with the constructed
parameters. -/
theorem do_finalize_requires_reset_address (cpu : OpenPitonRV64) :
    OpenPitonRV64.do_finalize { cpu with reset_address := none } =
      .error .assertionError ∧
    ∀ a : Nat,
      OpenPitonRV64.do_finalize { cpu with reset_address := some a } =
        .ok { cpu with
              reset_address := some a
              specials :=
                cpu.specials ++ [(openPitonModuleName, cpu.cpu_params)] } := by
  refine ⟨?_, fun a => ?_⟩ <;> simp [OpenPitonRV64.do_finalize]
